import Mathlib

/-!
# Verification of the EDI 835 transaction-set parser and flattener

Shallow embedding of `edi_835_parser/transaction_set/transaction_set.py`:
the data model (interchange, financial information, organizations, claims,
services, adjustments), the payer lookup, the per-service serialization and
the flattening to rows, and the top-level segment dispatcher `build` /
`build_attribute` together with the tokenizer.

Python `None` becomes `Option`; the `assert` in `payer` and the attribute
access on a possibly-`None` `financial_information` become `Except`.
The loop builders (`OrganizationLoop.build`, `ClaimLoop.build`), the
identifier extractor `find_identifier` and the fixed identification tags
live outside the translated file; they are modelled from the spec where
needed, as noted on each such definition.
-/

/-- A date-carrying segment (`DTM`-style); only its `date` field is read. -/
structure DateInfo where
  date : String
deriving DecidableEq, Repr

/-- Interchange segment (`ISA`); its fields are never read by the flatten
stage, so the payload is kept opaque as the raw segment text. -/
structure InterchangeSegment where
  raw : String
deriving DecidableEq, Repr

/-- Financial information segment (`BPR`); only `transaction_date` is read. -/
structure FinancialInformationSegment where
  transaction_date : String
deriving DecidableEq, Repr

/-- Organization segment (`N1`): `type` and `name` as read by the code. -/
structure OrganizationSegment where
  type : String
  name : String
deriving DecidableEq, Repr

/-- Organization loop: wraps the organization segment. -/
structure OrganizationLoop where
  organization : OrganizationSegment
deriving DecidableEq, Repr

/-- Remark segment carried by a service: `qualifier` and `code`. -/
structure RemarkSegment where
  qualifier : String
  code : String
deriving DecidableEq, Repr

/-- Service-level adjustment: `amount`, `group_code`, `reason_code`. -/
structure Adjustment where
  amount : Int
  group_code : String
  reason_code : String
deriving DecidableEq, Repr

/-- Service segment fields read by the flatten stage. -/
structure ServiceSegment where
  service_code : String
  units : Int
  charge_amount : Int
  paid_amount : Int
deriving DecidableEq, Repr

/-- Service loop: segment plus optional period dates, remark, references
and the ordered adjustments. A Python `None`/empty reference list are both
modelled by `[]`, matching the truthiness test `if service.references`. -/
structure ServiceLoop where
  service : ServiceSegment
  service_period_start : Option DateInfo
  service_period_end : Option DateInfo
  remark : Option RemarkSegment
  references : List String
  adjustments : List Adjustment
deriving DecidableEq, Repr

/-- Claim segment: only `index` is read. -/
structure ClaimSegment where
  index : String
deriving DecidableEq, Repr

/-- Patient segment: only `name` is read. -/
structure PatientSegment where
  name : String
deriving DecidableEq, Repr

/-- Rendering-provider segment: only `name` is read. -/
structure ProviderSegment where
  name : String
deriving DecidableEq, Repr

/-- Claim loop: claim segment, patient, optional statement period dates,
optional rendering provider, and the ordered services. -/
structure ClaimLoop where
  claim : ClaimSegment
  patient : PatientSegment
  claim_statement_period_start : Option DateInfo
  claim_statement_period_end : Option DateInfo
  rendering_provider : Option ProviderSegment
  services : List ServiceLoop
deriving DecidableEq, Repr

/-- The aggregate root built by `TransactionSet.build`.  `interchange` and
`financial_information` start as Python `None` and stay so when the
corresponding segment is missing, hence `Option`. -/
structure TransactionSet where
  interchange : Option InterchangeSegment
  financial_information : Option FinancialInformationSegment
  claims : List ClaimLoop
  organizations : List OrganizationLoop
deriving DecidableEq, Repr

/-- The base record produced by `serialize_service` (a Python dict with
these twelve keys). -/
structure ServiceRecord where
  claim_index : String
  patient : String
  code : String
  units : Int
  transaction_date : String
  charge_amount : Int
  payer : String
  start_date : Option String
  end_date : Option String
  remark : Option String
  reference : Option String
  rendering_provider : Option String
deriving DecidableEq, Repr

/-- A flattened row: the base record extended by `add_line_item` with
`amount`, `type`, `group`, `reason`. -/
structure Row extends ServiceRecord where
  amount : Int
  type : String
  group : Option String
  reason : Option String
deriving DecidableEq, Repr

namespace TransactionSet

/-- `TransactionSet.payer`: filter the organizations to `type == 'payer'`,
`assert len(payer) == 1`, return `payer[0]`.  The failed assertion is the
`Except.error` branch. -/
def payer (ts : TransactionSet) : Except String OrganizationLoop :=
  match ts.organizations.filter (fun o => o.organization.type == "payer") with
  | [o] => Except.ok o
  | _ => Except.error "AssertionError"

/-- `TransactionSet.add_line_item`: copy the base record and set the four
line-item fields. -/
def add_line_item (service : ServiceRecord) (amount : Int) (type : String)
    (group : Option String) (reason : Option String) : Row :=
  { toServiceRecord := service, amount := amount, type := type,
    group := group, reason := reason }

/-- `TransactionSet.serialize_service`: build the base record for one
service of one claim.  Accessing `transaction_date` on a missing
`financial_information` raises in Python, hence the `Except.error`. -/
def serialize_service (financial_information : Option FinancialInformationSegment)
    (py : OrganizationLoop) (claim : ClaimLoop) (service : ServiceLoop) :
    Except String ServiceRecord :=
  let remark : Option String :=
    match service.remark with
    | some r => some (r.qualifier ++ ": " ++ r.code)
    | none => none
  let reference : Option String :=
    if service.references.isEmpty then none
    else some (String.intercalate ", " service.references)
  let start_date : Option String :=
    match service.service_period_start with
    | some d => some d.date
    | none =>
      match claim.claim_statement_period_start with
      | some d => some d.date
      | none => none
  let end_date : Option String :=
    match service.service_period_end with
    | some d => some d.date
    | none =>
      match claim.claim_statement_period_end with
      | some d => some d.date
      | none => none
  match financial_information with
  | none => Except.error "AttributeError"
  | some fi =>
    Except.ok {
      claim_index := claim.claim.index
      patient := claim.patient.name
      code := service.service.service_code
      units := service.service.units
      transaction_date := fi.transaction_date
      charge_amount := service.service.charge_amount
      payer := py.organization.name
      start_date := start_date
      end_date := end_date
      remark := remark
      reference := reference
      rendering_provider :=
        match claim.rendering_provider with
        | some p => some p.name
        | none => none }

/-- Body of the inner loop of `to_dataframe`: fetch `self.payer`, serialize
the service, emit the payment row followed by one adjustment row per
adjustment. -/
def rowsForService (ts : TransactionSet) (claim : ClaimLoop)
    (service : ServiceLoop) : Except String (List Row) :=
  match ts.payer with
  | Except.error e => Except.error e
  | Except.ok py =>
    match serialize_service ts.financial_information py claim service with
    | Except.error e => Except.error e
    | Except.ok serialized =>
      Except.ok (add_line_item serialized service.service.paid_amount "payment" none none ::
        service.adjustments.map (fun adjustment =>
          add_line_item serialized adjustment.amount "adjustment"
            (some adjustment.group_code) (some adjustment.reason_code)))

/-- The inner `for service in claim.services` loop, in document order. -/
def rowsForServices (ts : TransactionSet) (claim : ClaimLoop) :
    List ServiceLoop → Except String (List Row)
  | [] => Except.ok []
  | service :: rest =>
    match rowsForService ts claim service with
    | Except.error e => Except.error e
    | Except.ok rows =>
      match rowsForServices ts claim rest with
      | Except.error e => Except.error e
      | Except.ok more => Except.ok (rows ++ more)

/-- The outer `for claim in self.claims` loop, in document order. -/
def rowsForClaims (ts : TransactionSet) :
    List ClaimLoop → Except String (List Row)
  | [] => Except.ok []
  | claim :: rest =>
    match rowsForServices ts claim claim.services with
    | Except.error e => Except.error e
    | Except.ok rows =>
      match rowsForClaims ts rest with
      | Except.error e => Except.error e
      | Except.ok more => Except.ok (rows ++ more)

/-- `TransactionSet.to_dataframe`: flatten the remittance advice by service
to the ordered row sequence (the rows of the pandas DataFrame). -/
def to_dataframe (ts : TransactionSet) : Except String (List Row) :=
  rowsForClaims ts ts.claims

end TransactionSet

/-- Python `str.split(sep)` for a one-character separator, by structural
recursion on the character list: splits at every occurrence of the
separator, keeping empty pieces. -/
def splitChar (sep : Char) : List Char → List (List Char)
  | [] => [[]]
  | c :: cs =>
    if c = sep then [] :: splitChar sep cs
    else match splitChar sep cs with
      | [] => [[c]]
      | p :: ps => (c :: p) :: ps

/-- Drop leading whitespace characters. -/
def dropLeadingWs : List Char → List Char
  | [] => []
  | c :: cs => if c.isWhitespace then dropLeadingWs cs else c :: cs

/-- Python `str.strip()`: drop whitespace from both ends. -/
def stripChars (cs : List Char) : List Char :=
  (dropLeadingWs (dropLeadingWs cs).reverse).reverse

/-- Modelled from the spec: `find_identifier` (segments/utilities) — given
one raw segment, returns its leading identifier token, the substring up to
the first field delimiter; the field delimiter of this format is the
asterisk. -/
def find_identifier (segment : String) : String :=
  String.mk (segment.toList.takeWhile (fun c => c ≠ '*'))

/-- Modelled from the spec: the external collaborators' fixed contracts —
the four fixed identification tags (Interchange, FinancialInformation,
Organization-initiating, Claim-initiating) and, for each of the two loop
builders the dispatcher invokes, the set of segment identifiers that the
loop (together with its nested sub-loops) recognizes as its own. -/
structure SegmentCatalog where
  interchangeId : String
  financialInformationId : String
  organizationId : String
  claimId : String
  organizationOwned : String → Bool
  claimOwned : String → Bool

/-- Modelled from the spec: the Loop Builder general contract (§4.4) at the
token level, scan part — consume every following cursor token whose
identifier the loop owns (directly or through a nested sub-loop); the first
token it does not own is returned unconsumed as the leftover, and an
exhausted cursor is the natural end of the loop. -/
def loopBuildGo (owned : String → Bool) (members : List String) :
    List String → List String × List String × Option String
  | [] => (members, [], none)
  | s :: rest =>
    if owned (find_identifier s) then loopBuildGo owned (members ++ [s]) rest
    else (members, rest, some s)

/-- Modelled from the spec: the Loop Builder general contract (§4.4) at the
token level — `build(starting_segment, cursor)` consumes the starting
segment as the first member and then scans with `loopBuildGo`.  The built
value is represented by the list of consumed member tokens. -/
def loopBuild (owned : String → Bool) (start : String) (cursor : List String) :
    List String × List String × Option String :=
  loopBuildGo owned [start] cursor

/-- `BuildAttributeResponse(key, value, segment, segments)`, with the value
at the token level: the member segments of a loop, or the one segment of an
interchange / financial-information record. -/
structure BuildAttributeResponse where
  key : Option String
  value : Option (List String)
  segment : Option String
  segments : Option (List String)
deriving DecidableEq, Repr

namespace TransactionSet

/-- The identifier classification chain of `build_attribute` (lines
177–196): four recognized identifiers, everything else falls through to
the final branch — no key, no value, pending cleared, cursor unchanged. -/
def classify_segment (cat : SegmentCatalog) (seg : String) (segs : List String) :
    BuildAttributeResponse :=
  let identifier := find_identifier seg
  if identifier == cat.interchangeId then
    ⟨some "interchange", some [seg], none, some segs⟩
  else if identifier == cat.financialInformationId then
    ⟨some "financial information", some [seg], none, some segs⟩
  else if identifier == cat.organizationId then
    match loopBuild cat.organizationOwned seg segs with
    | (members, segs2, leftover) =>
      ⟨some "organization", some members, leftover, some segs2⟩
  else if identifier == cat.claimId then
    match loopBuild cat.claimOwned seg segs with
    | (members, segs2, leftover) =>
      ⟨some "claim", some members, leftover, some segs2⟩
  else ⟨none, none, none, some segs⟩

/-- `TransactionSet.build_attribute`: pull a segment from the cursor when
none is pending (an exhausted cursor yields the all-`None` response, the
loop's exit signal), then classify and dispatch. -/
def build_attribute (cat : SegmentCatalog) (segment : Option String)
    (segments : List String) : BuildAttributeResponse :=
  match segment, segments with
  | none, [] => ⟨none, none, none, none⟩
  | none, s :: rest => classify_segment cat s rest
  | some s, rest => classify_segment cat s rest

end TransactionSet

/-- The result of `TransactionSet.build` at the token level: which raw
segments each record was built from. -/
structure RawTransactionSet where
  interchange : Option (List String)
  financial_information : Option (List String)
  claims : List (List String)
  organizations : List (List String)
deriving DecidableEq, Repr

namespace TransactionSet

/-- The four key-guarded attribute assignments in the body of the `build`
loop (lines 155–165): record the response's value under its key. -/
def updateAttributes (response : BuildAttributeResponse) (acc : RawTransactionSet) :
    RawTransactionSet :=
  let acc := if response.key == some "interchange" then
      { acc with interchange := response.value } else acc
  let acc := if response.key == some "financial information" then
      { acc with financial_information := response.value } else acc
  let acc := if response.key == some "organization" then
      { acc with organizations := acc.organizations ++ [response.value.getD []] }
    else acc
  let acc := if response.key == some "claim" then
      { acc with claims := acc.claims ++ [response.value.getD []] }
    else acc
  acc

/-- The `while True` loop of `build` (lines 146–166), with an explicit fuel
bound; `none` means the fuel ran out — a case the Python loop does not
have, and which the termination theorem shows is never reached when the
fuel exceeds the pending-plus-cursor token count. -/
def buildLoop (cat : SegmentCatalog) : Nat → Option String → List String →
    RawTransactionSet → Option RawTransactionSet
  | 0, _, _, _ => none
  | fuel + 1, segment, segments, acc =>
    let response := build_attribute cat segment segments
    match response.segments with
    | none => some acc
    | some segs => buildLoop cat fuel response.segment segs (updateAttributes response acc)

/-- Lines 140–141 of `build`: split the file text on the record delimiter
and strip each piece. -/
def tokenize (file : String) : List String :=
  ((splitChar '~' file.toList).map stripChars).map String.mk

/-- `TransactionSet.build` after the file read: tokenize, then run the
dispatch loop from an empty pending segment over the whole token sequence,
starting from the four empty attributes. -/
def build (cat : SegmentCatalog) (file : String) : Option RawTransactionSet :=
  buildLoop cat ((tokenize file).length + 1) none (tokenize file)
    ⟨none, none, [], []⟩

end TransactionSet

/-- The rows `to_dataframe` emits for one service when the payer and the
financial information have been resolved: the payment row followed by the
adjustment rows. -/
def serviceRows (py : OrganizationLoop) (fi : FinancialInformationSegment)
    (claim : ClaimLoop) (service : ServiceLoop) : List Row :=
  match TransactionSet.serialize_service (some fi) py claim service with
  | Except.error _ => []
  | Except.ok base =>
    TransactionSet.add_line_item base service.service.paid_amount "payment" none none ::
      service.adjustments.map (fun adjustment =>
        TransactionSet.add_line_item base adjustment.amount "adjustment"
          (some adjustment.group_code) (some adjustment.reason_code))

/-- Size contribution of the pending segment to the loop measure. -/
def pendingCount : Option String → Nat
  | none => 0
  | some _ => 1

/-- The last segment of `l` whose identifier is `idTag`, in document
order. -/
def lastTagged (idTag : String) (l : List String) : Option String :=
  (l.filter (fun s => find_identifier s == idTag)).getLast?

/-- The header record (`interchange` or `financial_information`) that the
build loop holds after scanning `l` starting from the current value `cur`:
the last tagged segment wins. -/
def headerFrom (idTag : String) (l : List String) (cur : Option (List String)) :
    Option (List String) :=
  match lastTagged idTag l with
  | some s => some [s]
  | none => cur

/-- Fixture: a unique payer-type organization. -/
def exPayerOrg : OrganizationLoop := ⟨⟨"payer", "ACME INSURANCE"⟩⟩

/-- Fixture: one adjustment of 10 with group CO and reason 45. -/
def exAdjustment : Adjustment := ⟨10, "CO", "45"⟩

/-- Fixture: a service with its own end date but no start date. -/
def exService : ServiceLoop :=
  ⟨⟨"99213", 1, 100, 50⟩, none, some ⟨"20200102"⟩, none, [], [exAdjustment]⟩

/-- Fixture: a claim with a statement period start date and one service. -/
def exClaim : ClaimLoop := ⟨⟨"1"⟩, ⟨"DOE JANE"⟩, some ⟨"20200101"⟩, none, none, [exService]⟩

/-- Fixture: a financial information segment. -/
def exFinancialInformation : FinancialInformationSegment := ⟨"20200110"⟩

/-- Fixture: a complete transaction set with one claim and one payer. -/
def exTransactionSet : TransactionSet :=
  ⟨some ⟨"ISA*00"⟩, some exFinancialInformation, [exClaim], [exPayerOrg]⟩

/-- Fixture: the same transaction set with both header segments missing. -/
def exTransactionSetNoFi : TransactionSet := ⟨none, none, [exClaim], [exPayerOrg]⟩

/-- Fixture: the base record that `serialize_service` produces for the
fixture claim and service. -/
def exServiceRecord : ServiceRecord :=
  ⟨"1", "DOE JANE", "99213", 1, "20200110", 100, "ACME INSURANCE",
    some "20200101", some "20200102", none, none, none⟩

/-- Fixture: a segment catalog with the standard 835 identifications. -/
def exCatalog : SegmentCatalog :=
  ⟨"ISA", "BPR", "N1", "CLP",
    fun i => i == "N3" || i == "N4",
    fun i => i == "SVC" || i == "CAS" || i == "NM1"⟩

/-- Fixture: the empty starting attributes of the build loop. -/
def exEmptyRaw : RawTransactionSet := ⟨none, none, [], []⟩

/-- Claim C1: the payer lookup succeeds exactly when the organizations
list contains exactly one organization of type payer, returning that
organization, and fails with the data-integrity error (the failed
assertion) when there are zero or several; the check lives in the lookup
itself, which the parse stage never calls. -/
theorem payer_unique (ts : TransactionSet) :
    (∀ o, ts.payer = Except.ok o ↔
      ts.organizations.filter (fun og => og.organization.type == "payer") = [o]) ∧
    ((∃ e, ts.payer = Except.error e) ↔
      (ts.organizations.filter (fun og => og.organization.type == "payer")).length ≠ 1) := by
  unfold TransactionSet.payer
  rcases h : ts.organizations.filter (fun og => og.organization.type == "payer") with
    _ | ⟨a, _ | ⟨b, t⟩⟩ <;> rw [h] <;> simp

/-- Witness for C1 at the fixture transaction set. -/
theorem payer_unique_witness :
    TransactionSet.payer exTransactionSet = Except.ok exPayerOrg ↔
      exTransactionSet.organizations.filter
        (fun og => og.organization.type == "payer") = [exPayerOrg] :=
  (payer_unique exTransactionSet).1 exPayerOrg

/-- Claim C2: in the flattened base record the start date is the
service's own period start when present, else the claim's statement
period start when present, else absent; independently the same rule holds
for the end date using the end dates. -/
theorem serialize_service_date_fallback
    (fi : Option FinancialInformationSegment) (py : OrganizationLoop)
    (claim : ClaimLoop) (service : ServiceLoop) (row : ServiceRecord)
    (h : TransactionSet.serialize_service fi py claim service = Except.ok row) :
    ((∀ d, service.service_period_start = some d → row.start_date = some d.date) ∧
     (service.service_period_start = none →
       ∀ d, claim.claim_statement_period_start = some d → row.start_date = some d.date) ∧
     (service.service_period_start = none → claim.claim_statement_period_start = none →
       row.start_date = none)) ∧
    ((∀ d, service.service_period_end = some d → row.end_date = some d.date) ∧
     (service.service_period_end = none →
       ∀ d, claim.claim_statement_period_end = some d → row.end_date = some d.date) ∧
     (service.service_period_end = none → claim.claim_statement_period_end = none →
       row.end_date = none)) := by
  cases fi with
  | none => simp [TransactionSet.serialize_service] at h
  | some fi =>
    simp [TransactionSet.serialize_service] at h
    refine ⟨⟨?_, ?_, ?_⟩, ?_, ?_, ?_⟩ <;> intros <;> rw [← h] <;> simp_all

/-- Witness for C2: the fixture service inherits the claim's start date
and keeps its own end date. -/
theorem serialize_service_date_fallback_witness :
    exServiceRecord.start_date = some "20200101" ∧
    exServiceRecord.end_date = some "20200102" :=
  ⟨(serialize_service_date_fallback (some exFinancialInformation) exPayerOrg exClaim exService
      exServiceRecord rfl).1.2.1 rfl ⟨"20200101"⟩ rfl,
   (serialize_service_date_fallback (some exFinancialInformation) exPayerOrg exClaim exService
      exServiceRecord rfl).2.1 ⟨"20200102"⟩ rfl⟩

lemma serialize_service_some_ok (fi : FinancialInformationSegment)
    (py : OrganizationLoop) (claim : ClaimLoop) (service : ServiceLoop) :
    ∃ r, TransactionSet.serialize_service (some fi) py claim service = Except.ok r :=
  ⟨_, rfl⟩

lemma rowsForServices_eq (ts : TransactionSet) (py : OrganizationLoop)
    (fi : FinancialInformationSegment) (claim : ClaimLoop)
    (hpy : ts.payer = Except.ok py) (hfi : ts.financial_information = some fi) :
    ∀ svcs, TransactionSet.rowsForServices ts claim svcs =
      Except.ok (svcs.flatMap (serviceRows py fi claim)) := by
  intro svcs
  induction svcs with
  | nil => simp [TransactionSet.rowsForServices]
  | cons s rest ih =>
    obtain ⟨base, hb⟩ := serialize_service_some_ok fi py claim s
    simp [TransactionSet.rowsForServices, TransactionSet.rowsForService, hpy, hfi, hb, ih,
      serviceRows]

lemma rowsForClaims_eq (ts : TransactionSet) (py : OrganizationLoop)
    (fi : FinancialInformationSegment)
    (hpy : ts.payer = Except.ok py) (hfi : ts.financial_information = some fi) :
    ∀ cls, TransactionSet.rowsForClaims ts cls =
      Except.ok (cls.flatMap (fun claim => claim.services.flatMap (serviceRows py fi claim))) := by
  intro cls
  induction cls with
  | nil => simp [TransactionSet.rowsForClaims]
  | cons c rest ih =>
    simp [TransactionSet.rowsForClaims, rowsForServices_eq ts py fi c hpy hfi, ih]

/-- Claim C3: flattening emits, for each claim in order and each service
in order, exactly one payment row (amount = the service's paid amount,
type payment, group and reason absent) followed by one adjustment row per
adjustment of that service carrying its amount, group code and reason
code, in that order. -/
theorem to_dataframe_rows (ts : TransactionSet) (py : OrganizationLoop)
    (fi : FinancialInformationSegment)
    (hpy : ts.payer = Except.ok py) (hfi : ts.financial_information = some fi) :
    ts.to_dataframe = Except.ok (ts.claims.flatMap (fun claim =>
      claim.services.flatMap (fun service =>
        match TransactionSet.serialize_service (some fi) py claim service with
        | Except.error _ => []
        | Except.ok base =>
          TransactionSet.add_line_item base service.service.paid_amount "payment" none none ::
            service.adjustments.map (fun adjustment =>
              TransactionSet.add_line_item base adjustment.amount "adjustment"
                (some adjustment.group_code) (some adjustment.reason_code))))) := by
  rw [TransactionSet.to_dataframe, rowsForClaims_eq ts py fi hpy hfi]
  rfl

/-- Witness for C3 at the fixture transaction set. -/
theorem to_dataframe_rows_witness :
    TransactionSet.to_dataframe exTransactionSet =
      Except.ok (exTransactionSet.claims.flatMap (fun claim =>
        claim.services.flatMap (fun service =>
          match TransactionSet.serialize_service (some exFinancialInformation) exPayerOrg
              claim service with
          | Except.error _ => []
          | Except.ok base =>
            TransactionSet.add_line_item base service.service.paid_amount "payment" none none ::
              service.adjustments.map (fun adjustment =>
                TransactionSet.add_line_item base adjustment.amount "adjustment"
                  (some adjustment.group_code) (some adjustment.reason_code))))) :=
  to_dataframe_rows exTransactionSet exPayerOrg exFinancialInformation rfl rfl

lemma adjustment_rows_not_payment (base : ServiceRecord) (adjs : List Adjustment) :
    List.filter (fun r => r.type == "payment")
      (List.map (fun a =>
        ({ toServiceRecord := base, amount := a.amount, type := "adjustment",
           group := some a.group_code, reason := some a.reason_code } : Row)) adjs) = [] := by
  induction adjs <;> simp_all

lemma rowsForService_payment_sum (ts : TransactionSet) (claim : ClaimLoop)
    (service : ServiceLoop) (rows : List Row)
    (h : TransactionSet.rowsForService ts claim service = Except.ok rows) :
    ((rows.filter (fun r => r.type == "payment")).map (fun r => r.amount)).sum =
      service.service.paid_amount := by
  unfold TransactionSet.rowsForService at h
  cases hp : ts.payer with
  | error e => simp [hp] at h
  | ok py =>
    simp only [hp] at h
    cases hs : TransactionSet.serialize_service ts.financial_information py claim service with
    | error e => simp [hs] at h
    | ok base =>
      simp only [hs, Except.ok.injEq] at h
      subst h
      simp [List.filter, TransactionSet.add_line_item, adjustment_rows_not_payment]

lemma rowsForServices_payment_sum (ts : TransactionSet) (claim : ClaimLoop) :
    ∀ (svcs : List ServiceLoop) (rows : List Row),
      TransactionSet.rowsForServices ts claim svcs = Except.ok rows →
      ((rows.filter (fun r => r.type == "payment")).map (fun r => r.amount)).sum =
        (svcs.map (fun s => s.service.paid_amount)).sum := by
  intro svcs
  induction svcs with
  | nil => intro rows h; simp [TransactionSet.rowsForServices] at h; subst h; simp
  | cons s rest ih =>
    intro rows h
    unfold TransactionSet.rowsForServices at h
    cases h1 : TransactionSet.rowsForService ts claim s with
    | error e => simp [h1] at h
    | ok r1 =>
      simp only [h1] at h
      cases h2 : TransactionSet.rowsForServices ts claim rest with
      | error e => simp [h2] at h
      | ok r2 =>
        simp only [h2, Except.ok.injEq] at h
        subst h
        simp [List.filter_append, rowsForService_payment_sum ts claim s r1 h1, ih r2 h2]

lemma rowsForClaims_payment_sum (ts : TransactionSet) :
    ∀ (cls : List ClaimLoop) (rows : List Row),
      TransactionSet.rowsForClaims ts cls = Except.ok rows →
      ((rows.filter (fun r => r.type == "payment")).map (fun r => r.amount)).sum =
        ((cls.flatMap (fun c => c.services)).map (fun s => s.service.paid_amount)).sum := by
  intro cls
  induction cls with
  | nil => intro rows h; simp [TransactionSet.rowsForClaims] at h; subst h; simp
  | cons c rest ih =>
    intro rows h
    unfold TransactionSet.rowsForClaims at h
    cases h1 : TransactionSet.rowsForServices ts c c.services with
    | error e => simp [h1] at h
    | ok r1 =>
      simp only [h1] at h
      cases h2 : TransactionSet.rowsForClaims ts rest with
      | error e => simp [h2] at h
      | ok r2 =>
        simp only [h2, Except.ok.injEq] at h
        subst h
        simp [List.filter_append, rowsForServices_payment_sum ts c c.services r1 h1, ih r2 h2]

/-- Claim C4: when flattening succeeds, the sum of amount over the rows
whose type is payment equals the sum of the paid amounts over all
services of all claims of the transaction set. -/
theorem payment_amount_sum (ts : TransactionSet) (rows : List Row)
    (hdf : ts.to_dataframe = Except.ok rows) :
    ((rows.filter (fun r => r.type == "payment")).map (fun r => r.amount)).sum =
      ((ts.claims.flatMap (fun c => c.services)).map (fun s => s.service.paid_amount)).sum :=
  rowsForClaims_payment_sum ts ts.claims rows hdf

/-- Witness for C4 at the fixture transaction set. -/
theorem payment_amount_sum_witness :
    ∃ rows, TransactionSet.to_dataframe exTransactionSet = Except.ok rows ∧
      ((rows.filter (fun r => r.type == "payment")).map (fun r => r.amount)).sum =
        ((exTransactionSet.claims.flatMap (fun c => c.services)).map
          (fun s => s.service.paid_amount)).sum := by
  refine ⟨_, rfl, payment_amount_sum exTransactionSet _ rfl⟩

lemma rowsForClaims_all_empty (ts : TransactionSet) :
    ∀ cls, (∀ c ∈ cls, c.services = []) → TransactionSet.rowsForClaims ts cls = Except.ok [] := by
  intro cls
  induction cls with
  | nil => intro _; rfl
  | cons c rest ih =>
    intro h
    have hc : c.services = [] := h c (by simp)
    have hr := ih (fun x hx => h x (by simp [hx]))
    simp [TransactionSet.rowsForClaims, hc, hr, TransactionSet.rowsForServices]

/-- Claim C10: a transaction set with no claims, or whose claims all have
no services, flattens to the empty row sequence without ever invoking the
payer lookup, so flattening succeeds even when the organizations list
holds zero or several payer-type organizations. -/
theorem flatten_empty_claims (ts : TransactionSet) :
    (ts.claims = [] → ts.to_dataframe = Except.ok []) ∧
    ((∀ c ∈ ts.claims, c.services = []) → ts.to_dataframe = Except.ok []) := by
  constructor
  · intro h; rw [TransactionSet.to_dataframe, h]; rfl
  · intro h; rw [TransactionSet.to_dataframe]; exact rowsForClaims_all_empty ts ts.claims h

/-- Witness for C10 at a transaction set with no claims and no
organizations at all. -/
theorem flatten_empty_claims_witness :
    TransactionSet.to_dataframe ⟨none, none, [], []⟩ = Except.ok [] :=
  (flatten_empty_claims ⟨none, none, [], []⟩).1 rfl

lemma rowsForService_no_fi (ts : TransactionSet) (claim : ClaimLoop) (service : ServiceLoop)
    (hfi : ts.financial_information = none) :
    ∃ e, TransactionSet.rowsForService ts claim service = Except.error e := by
  unfold TransactionSet.rowsForService
  cases hp : ts.payer with
  | error e => exact ⟨e, rfl⟩
  | ok py => exact ⟨"AttributeError", by simp [hfi, TransactionSet.serialize_service]⟩

lemma rowsForClaims_no_fi (ts : TransactionSet) (hfi : ts.financial_information = none) :
    ∀ cls, (∃ c ∈ cls, c.services ≠ []) →
      ∃ e, TransactionSet.rowsForClaims ts cls = Except.error e := by
  intro cls
  induction cls with
  | nil => rintro ⟨c, hc, _⟩; cases hc
  | cons c rest ih =>
    rintro ⟨c0, hc0, hne⟩
    rcases hs : c.services with _ | ⟨s, stl⟩
    · have hrest : ∃ c1 ∈ rest, c1.services ≠ [] := by
        rcases List.mem_cons.mp hc0 with h | h
        · subst h; exact absurd hs hne
        · exact ⟨c0, h, hne⟩
      obtain ⟨e, he⟩ := ih hrest
      exact ⟨e, by simp [TransactionSet.rowsForClaims, hs, TransactionSet.rowsForServices, he]⟩
    · obtain ⟨e, he⟩ := rowsForService_no_fi ts c s hfi
      exact ⟨e, by simp [TransactionSet.rowsForClaims, hs, TransactionSet.rowsForServices, he]⟩

lemma rowsForService_interchange (ts : TransactionSet) (i : Option InterchangeSegment)
    (claim : ClaimLoop) (service : ServiceLoop) :
    TransactionSet.rowsForService { ts with interchange := i } claim service =
      TransactionSet.rowsForService ts claim service := rfl

lemma rowsForClaims_interchange (ts : TransactionSet) (i : Option InterchangeSegment) :
    ∀ cls, TransactionSet.rowsForClaims { ts with interchange := i } cls =
      TransactionSet.rowsForClaims ts cls := by
  intro cls
  induction cls with
  | nil => rfl
  | cons c rest ih =>
    have hsv : ∀ svcs, TransactionSet.rowsForServices { ts with interchange := i } c svcs =
        TransactionSet.rowsForServices ts c svcs := by
      intro svcs
      induction svcs with
      | nil => rfl
      | cons s stl ihs =>
        simp [TransactionSet.rowsForServices, rowsForService_interchange, ihs]
    simp [TransactionSet.rowsForClaims, hsv, ih]

/-- Claim C5 counterexample: a transaction set whose FinancialInformation
(and Interchange) is absent, with a unique payer and one claim holding
one service, makes `to_dataframe` fail with the attribute error instead
of producing rows with the transaction date absent. -/
theorem flatten_missing_fi_fails :
    exTransactionSetNoFi.financial_information = none ∧
    exTransactionSetNoFi.interchange = none ∧
    TransactionSet.to_dataframe exTransactionSetNoFi = Except.error "AttributeError" :=
  ⟨rfl, rfl, rfl⟩

/-- Claim C5 (amended): a missing Interchange never makes the flatten
stage fail, because flattening never reads the interchange field; a
missing FinancialInformation, however, makes it fail (the Python
attribute access on None raises) as soon as one service row must be
produced, and flattening succeeds, with an empty row sequence, only when
no claim has a service. -/
theorem flatten_missing_headers (ts : TransactionSet) (i1 i2 : Option InterchangeSegment) :
    TransactionSet.to_dataframe { ts with interchange := i1 } =
      TransactionSet.to_dataframe { ts with interchange := i2 } ∧
    (ts.financial_information = none →
      ((∃ c ∈ ts.claims, c.services ≠ []) → ∃ e, ts.to_dataframe = Except.error e) ∧
      ((∀ c ∈ ts.claims, c.services = []) → ts.to_dataframe = Except.ok [])) := by
  refine ⟨?_, fun hfi => ⟨fun hex => ?_, fun hall => ?_⟩⟩
  · show TransactionSet.rowsForClaims _ _ = TransactionSet.rowsForClaims _ _
    exact (rowsForClaims_interchange ts i1 ts.claims).trans
      (rowsForClaims_interchange ts i2 ts.claims).symm
  · exact rowsForClaims_no_fi ts hfi ts.claims hex
  · exact rowsForClaims_all_empty ts ts.claims hall

/-- Witness for the amended C5 at the fixture with missing headers. -/
theorem flatten_missing_headers_witness :
    TransactionSet.to_dataframe { exTransactionSetNoFi with interchange := some ⟨"ISA*A"⟩ } =
      TransactionSet.to_dataframe { exTransactionSetNoFi with interchange := none } ∧
    (∃ e, TransactionSet.to_dataframe exTransactionSetNoFi = Except.error e) :=
  ⟨(flatten_missing_headers exTransactionSetNoFi (some ⟨"ISA*A"⟩) none).1,
   ((flatten_missing_headers exTransactionSetNoFi (some ⟨"ISA*A"⟩) none).2 rfl).1
     ⟨exClaim, by simp [exTransactionSetNoFi], by simp [exClaim, exService]⟩⟩

lemma classify_segment_unrecognized (cat : SegmentCatalog) (seg : String) (segs : List String)
    (h1 : find_identifier seg ≠ cat.interchangeId)
    (h2 : find_identifier seg ≠ cat.financialInformationId)
    (h3 : find_identifier seg ≠ cat.organizationId)
    (h4 : find_identifier seg ≠ cat.claimId) :
    TransactionSet.classify_segment cat seg segs = ⟨none, none, none, some segs⟩ := by
  simp [TransactionSet.classify_segment, h1, h2, h3, h4]

lemma buildLoop_drop_pending (cat : SegmentCatalog) (seg : String) (segs : List String)
    (h1 : find_identifier seg ≠ cat.interchangeId)
    (h2 : find_identifier seg ≠ cat.financialInformationId)
    (h3 : find_identifier seg ≠ cat.organizationId)
    (h4 : find_identifier seg ≠ cat.claimId) :
    ∀ fuel acc, TransactionSet.buildLoop cat (fuel + 1) (some seg) segs acc =
      TransactionSet.buildLoop cat fuel none segs acc := by
  intro fuel acc
  simp only [TransactionSet.buildLoop, TransactionSet.build_attribute,
    classify_segment_unrecognized cat seg segs h1 h2 h3 h4]
  rfl

lemma buildLoop_drop_head (cat : SegmentCatalog) (seg : String) (segs : List String)
    (h1 : find_identifier seg ≠ cat.interchangeId)
    (h2 : find_identifier seg ≠ cat.financialInformationId)
    (h3 : find_identifier seg ≠ cat.organizationId)
    (h4 : find_identifier seg ≠ cat.claimId) :
    ∀ fuel acc, TransactionSet.buildLoop cat (fuel + 1) none (seg :: segs) acc =
      TransactionSet.buildLoop cat fuel none segs acc := by
  intro fuel acc
  simp only [TransactionSet.buildLoop, TransactionSet.build_attribute,
    classify_segment_unrecognized cat seg segs h1 h2 h3 h4]
  rfl

/-- Claim C6: a segment whose identifier is none of the four recognized
identifications is dropped by the top-level builder: the response carries
no key and no value, the pending segment is cleared while the cursor is
untouched, and the build loop continues over the remaining tokens with
all four attributes unchanged, whether the segment was pending or at the
head of the cursor. -/
theorem unrecognized_segment_dropped (cat : SegmentCatalog) (seg : String) (segs : List String)
    (h1 : find_identifier seg ≠ cat.interchangeId)
    (h2 : find_identifier seg ≠ cat.financialInformationId)
    (h3 : find_identifier seg ≠ cat.organizationId)
    (h4 : find_identifier seg ≠ cat.claimId) :
    TransactionSet.build_attribute cat (some seg) segs =
      ⟨none, none, none, some segs⟩ ∧
    (∀ fuel acc, TransactionSet.buildLoop cat (fuel + 1) (some seg) segs acc =
      TransactionSet.buildLoop cat fuel none segs acc) ∧
    (∀ fuel acc, TransactionSet.buildLoop cat (fuel + 1) none (seg :: segs) acc =
      TransactionSet.buildLoop cat fuel none segs acc) :=
  ⟨classify_segment_unrecognized cat seg segs h1 h2 h3 h4,
   buildLoop_drop_pending cat seg segs h1 h2 h3 h4,
   buildLoop_drop_head cat seg segs h1 h2 h3 h4⟩

/-- Witness for C6 at a concrete unrecognized segment. -/
theorem unrecognized_segment_dropped_witness :
    TransactionSet.build_attribute exCatalog (some "XYZ*1") ["ISA*2"] =
      ⟨none, none, none, some ["ISA*2"]⟩ ∧
    TransactionSet.buildLoop exCatalog (2 + 1) (some "XYZ*1") ["ISA*2"] exEmptyRaw =
      TransactionSet.buildLoop exCatalog 2 none ["ISA*2"] exEmptyRaw ∧
    TransactionSet.buildLoop exCatalog (2 + 1) none ("XYZ*1" :: ["ISA*2"]) exEmptyRaw =
      TransactionSet.buildLoop exCatalog 2 none ["ISA*2"] exEmptyRaw :=
  ⟨(unrecognized_segment_dropped exCatalog "XYZ*1" ["ISA*2"] (by decide) (by decide)
      (by decide) (by decide)).1,
   (unrecognized_segment_dropped exCatalog "XYZ*1" ["ISA*2"] (by decide) (by decide)
      (by decide) (by decide)).2.1 2 exEmptyRaw,
   (unrecognized_segment_dropped exCatalog "XYZ*1" ["ISA*2"] (by decide) (by decide)
      (by decide) (by decide)).2.2 2 exEmptyRaw⟩

/-- Claim C7 counterexample: tokenizing a document that ends in the
record delimiter keeps the empty trailing piece, so an empty string does
appear in the token sequence handed to the dispatcher. -/
theorem tokenize_no_empty_discard_counterexample :
    TransactionSet.tokenize "A~" = ["A", ""] ∧ "" ∈ TransactionSet.tokenize "A~" :=
  ⟨by decide, by decide⟩

/-- Claim C7 (amended): the tokenizer splits the text on the record
delimiter and trims each piece but discards nothing, so the token count
equals the piece count of the split; an empty token that reaches the
dispatcher is then dropped by its unrecognized-identifier branch whenever
the four identifications are nonempty. -/
theorem tokenize_splits_and_strips (cat : SegmentCatalog) (file : String)
    (h1 : cat.interchangeId ≠ "") (h2 : cat.financialInformationId ≠ "")
    (h3 : cat.organizationId ≠ "") (h4 : cat.claimId ≠ "") :
    (TransactionSet.tokenize file).length = (splitChar '~' file.toList).length ∧
    TransactionSet.tokenize file =
      (splitChar '~' file.toList).map (fun cs => String.mk (stripChars cs)) ∧
    (∀ (fuel : Nat) (segs : List String) (acc : RawTransactionSet),
      TransactionSet.buildLoop cat (fuel + 1) (some "") segs acc =
        TransactionSet.buildLoop cat fuel none segs acc) ∧
    (∀ (fuel : Nat) (segs : List String) (acc : RawTransactionSet),
      TransactionSet.buildLoop cat (fuel + 1) none ("" :: segs) acc =
        TransactionSet.buildLoop cat fuel none segs acc) := by
  have hid : find_identifier "" = "" := rfl
  refine ⟨by simp [TransactionSet.tokenize], by simp [TransactionSet.tokenize], ?_, ?_⟩
  · intro fuel segs acc
    exact buildLoop_drop_pending cat "" segs (by rw [hid]; exact fun hh => h1 hh.symm)
      (by rw [hid]; exact fun hh => h2 hh.symm) (by rw [hid]; exact fun hh => h3 hh.symm)
      (by rw [hid]; exact fun hh => h4 hh.symm) fuel acc
  · intro fuel segs acc
    exact buildLoop_drop_head cat "" segs (by rw [hid]; exact fun hh => h1 hh.symm)
      (by rw [hid]; exact fun hh => h2 hh.symm) (by rw [hid]; exact fun hh => h3 hh.symm)
      (by rw [hid]; exact fun hh => h4 hh.symm) fuel acc

/-- Witness for the amended C7 at a concrete document and catalog. -/
theorem tokenize_splits_and_strips_witness :
    (TransactionSet.tokenize "A~").length = (splitChar '~' "A~".toList).length ∧
    TransactionSet.buildLoop exCatalog (1 + 1) (some "") ["ISA*1"] exEmptyRaw =
      TransactionSet.buildLoop exCatalog 1 none ["ISA*1"] exEmptyRaw :=
  ⟨(tokenize_splits_and_strips exCatalog "A~" (by decide) (by decide) (by decide)
      (by decide)).1,
   (tokenize_splits_and_strips exCatalog "A~" (by decide) (by decide) (by decide)
      (by decide)).2.2.1 1 ["ISA*1"] exEmptyRaw⟩

lemma loopBuildGo_length (owned : String → Bool) :
    ∀ (cursor members : List String),
      ((loopBuildGo owned members cursor).2.1).length +
        pendingCount (loopBuildGo owned members cursor).2.2 ≤ cursor.length := by
  intro cursor
  induction cursor with
  | nil => intro members; simp [loopBuildGo, pendingCount]
  | cons s rest ih =>
    intro members
    cases h : owned (find_identifier s) with
    | false => simp [loopBuildGo, h, pendingCount]
    | true =>
      simp only [loopBuildGo, h, if_true]
      exact le_trans (ih (members ++ [s])) (by simp)

lemma classify_segment_measure (cat : SegmentCatalog) (s : String) (segs : List String) :
    ∃ segs2, (TransactionSet.classify_segment cat s segs).segments = some segs2 ∧
      pendingCount (TransactionSet.classify_segment cat s segs).segment + segs2.length ≤
        segs.length := by
  simp only [TransactionSet.classify_segment]
  split_ifs with hI hF hO hC
  · exact ⟨segs, rfl, by simp [pendingCount]⟩
  · exact ⟨segs, rfl, by simp [pendingCount]⟩
  · rcases hlb : loopBuild cat.organizationOwned s segs with ⟨m, c2, lo⟩
    have hb := loopBuildGo_length cat.organizationOwned segs [s]
    rw [show loopBuildGo cat.organizationOwned [s] segs = (m, c2, lo) from hlb] at hb
    exact ⟨c2, by simp [hlb], by simpa [Nat.add_comm] using hb⟩
  · rcases hlb : loopBuild cat.claimOwned s segs with ⟨m, c2, lo⟩
    have hb := loopBuildGo_length cat.claimOwned segs [s]
    rw [show loopBuildGo cat.claimOwned [s] segs = (m, c2, lo) from hlb] at hb
    exact ⟨c2, by simp [hlb], by simpa [Nat.add_comm] using hb⟩
  · exact ⟨segs, rfl, by simp [pendingCount]⟩

lemma build_attribute_exit_iff (cat : SegmentCatalog) (pending : Option String)
    (segs : List String) :
    (TransactionSet.build_attribute cat pending segs).segments = none ↔
      pending = none ∧ segs = [] := by
  cases pending with
  | none =>
    cases segs with
    | nil => simp [TransactionSet.build_attribute]
    | cons s rest =>
      obtain ⟨segs2, h2, _⟩ := classify_segment_measure cat s rest
      simp [TransactionSet.build_attribute, h2]
  | some s =>
    obtain ⟨segs2, h2, _⟩ := classify_segment_measure cat s segs
    simp [TransactionSet.build_attribute, h2]

lemma build_attribute_measure (cat : SegmentCatalog) (pending : Option String)
    (segs : List String) (segs2 : List String)
    (h : (TransactionSet.build_attribute cat pending segs).segments = some segs2) :
    pendingCount (TransactionSet.build_attribute cat pending segs).segment + segs2.length + 1 ≤
      pendingCount pending + segs.length := by
  cases pending with
  | none =>
    cases segs with
    | nil => simp [TransactionSet.build_attribute] at h
    | cons s rest =>
      obtain ⟨segs2b, h2, hle⟩ := classify_segment_measure cat s rest
      have hba : TransactionSet.build_attribute cat none (s :: rest) =
          TransactionSet.classify_segment cat s rest := rfl
      rw [hba] at h ⊢
      rw [h2] at h
      cases h
      have hpn : pendingCount none = 0 := rfl
      rw [hpn, List.length_cons]
      omega
  | some s =>
    obtain ⟨segs2b, h2, hle⟩ := classify_segment_measure cat s segs
    have hba : TransactionSet.build_attribute cat (some s) segs =
        TransactionSet.classify_segment cat s segs := rfl
    rw [hba] at h ⊢
    rw [h2] at h
    cases h
    have hps : pendingCount (some s) = 1 := rfl
    rw [hps]
    omega

lemma buildLoop_total (cat : SegmentCatalog) :
    ∀ (fuel : Nat) (pending : Option String) (segs : List String) (acc : RawTransactionSet),
      pendingCount pending + segs.length < fuel →
      ∃ r, TransactionSet.buildLoop cat fuel pending segs acc = some r := by
  intro fuel
  induction fuel with
  | zero => intro pending segs acc h; omega
  | succ fuel ih =>
    intro pending segs acc h
    rcases hba : TransactionSet.build_attribute cat pending segs with ⟨key, value, pend2, segsOpt⟩
    cases segsOpt with
    | none => exact ⟨acc, by simp [TransactionSet.buildLoop, hba]⟩
    | some segs2 =>
      have hm : pendingCount pend2 + segs2.length + 1 ≤
          pendingCount pending + segs.length := by
        have hm0 := build_attribute_measure cat pending segs segs2 (by rw [hba])
        rw [hba] at hm0
        exact hm0
      simp only [TransactionSet.buildLoop, hba]
      exact ih pend2 segs2 _ (by omega)

/-- Claim C8: the build loop terminates: any fuel exceeding the
pending-plus-cursor token count suffices, the dispatch response signals
exit exactly when no segment is pending and the cursor is exhausted, and
`build`, which supplies exactly that much fuel, always returns a
transaction set. -/
theorem build_loop_terminates (cat : SegmentCatalog) :
    (∀ (fuel : Nat) (pending : Option String) (segs : List String) (acc : RawTransactionSet),
      pendingCount pending + segs.length < fuel →
      ∃ r, TransactionSet.buildLoop cat fuel pending segs acc = some r) ∧
    (∀ (pending : Option String) (segs : List String),
      (TransactionSet.build_attribute cat pending segs).segments = none ↔
        pending = none ∧ segs = []) ∧
    (∀ file, ∃ r, TransactionSet.build cat file = some r) := by
  refine ⟨buildLoop_total cat, build_attribute_exit_iff cat, fun file => ?_⟩
  show ∃ r, TransactionSet.buildLoop cat ((TransactionSet.tokenize file).length + 1) none
    (TransactionSet.tokenize file) ⟨none, none, [], []⟩ = some r
  exact buildLoop_total cat _ none (TransactionSet.tokenize file) _ (by simp [pendingCount])

/-- Witness for C8 at concrete token sequences. -/
theorem build_loop_terminates_witness :
    (∃ r, TransactionSet.buildLoop exCatalog 3 none ["XYZ*1", "ISA*2"] exEmptyRaw = some r) ∧
    ((TransactionSet.build_attribute exCatalog none []).segments = none ↔
      (none : Option String) = none ∧ ([] : List String) = []) ∧
    (∃ r, TransactionSet.build exCatalog "ISA*1~CLP*2" = some r) :=
  ⟨(build_loop_terminates exCatalog).1 3 none ["XYZ*1", "ISA*2"] exEmptyRaw (by decide),
   (build_loop_terminates exCatalog).2.1 none [],
   (build_loop_terminates exCatalog).2.2 "ISA*1~CLP*2"⟩

lemma headerFrom_cons_tagged (idTag : String) (s : String) (l : List String)
    (cur : Option (List String)) (h : find_identifier s = idTag) :
    headerFrom idTag (s :: l) cur = headerFrom idTag l (some [s]) := by
  unfold headerFrom lastTagged
  simp only [List.filter_cons, h, beq_self_eq_true, if_true]
  rcases hf : (l.filter fun t => find_identifier t == idTag) with _ | ⟨x, xs⟩
  · simp
  · simp only [hf, List.getLast?_cons_cons]
    rcases hgl : (x :: xs).getLast? with _ | y
    · simp at hgl
    · simp [hgl]

lemma headerFrom_cons_untagged (idTag : String) (s : String) (l : List String)
    (cur : Option (List String)) (h : find_identifier s ≠ idTag) :
    headerFrom idTag (s :: l) cur = headerFrom idTag l cur := by
  unfold headerFrom lastTagged
  simp [List.filter_cons, h]

lemma headerFrom_append_untagged (idTag : String) :
    ∀ (pre l : List String) (cur : Option (List String)),
      (∀ t ∈ pre, find_identifier t ≠ idTag) →
      headerFrom idTag (pre ++ l) cur = headerFrom idTag l cur := by
  intro pre
  induction pre with
  | nil => intro l cur _; rfl
  | cons t ts ih =>
    intro l cur h
    rw [List.cons_append, headerFrom_cons_untagged idTag t (ts ++ l) cur (h t (by simp))]
    exact ih l cur (fun x hx => h x (by simp [hx]))

lemma loopBuildGo_split (owned : String → Bool) :
    ∀ (cursor members : List String), ∃ pre,
      cursor = pre ++ ((loopBuildGo owned members cursor).2.2).toList ++
        (loopBuildGo owned members cursor).2.1 ∧
      ∀ t ∈ pre, owned (find_identifier t) = true := by
  intro cursor
  induction cursor with
  | nil => intro members; exact ⟨[], by simp [loopBuildGo], by simp⟩
  | cons s rest ih =>
    intro members
    cases h : owned (find_identifier s) with
    | true =>
      obtain ⟨pre, hpre, hall⟩ := ih (members ++ [s])
      refine ⟨s :: pre, ?_, ?_⟩
      · simp only [loopBuildGo, h, if_true, List.cons_append]
        exact congrArg (s :: ·) hpre
      · intro t ht
        rcases List.mem_cons.mp ht with rfl | ht2
        · exact h
        · exact hall t ht2
    | false => exact ⟨[], by simp [loopBuildGo, h], by simp⟩

lemma classify_segment_interchange (cat : SegmentCatalog) (s : String) (tl : List String)
    (hI : find_identifier s = cat.interchangeId) :
    TransactionSet.classify_segment cat s tl =
      ⟨some "interchange", some [s], none, some tl⟩ := by
  simp [TransactionSet.classify_segment, hI]

lemma classify_segment_financial (cat : SegmentCatalog) (s : String) (tl : List String)
    (hI : find_identifier s ≠ cat.interchangeId)
    (hF : find_identifier s = cat.financialInformationId) :
    TransactionSet.classify_segment cat s tl =
      ⟨some "financial information", some [s], none, some tl⟩ := by
  simp only [TransactionSet.classify_segment]
  rw [if_neg (by simp [hI]), if_pos (by simp [hF])]

lemma classify_segment_organization (cat : SegmentCatalog) (s : String) (tl : List String)
    (m c2 : List String) (lo : Option String)
    (hI : find_identifier s ≠ cat.interchangeId)
    (hF : find_identifier s ≠ cat.financialInformationId)
    (hO : find_identifier s = cat.organizationId)
    (hlb : loopBuild cat.organizationOwned s tl = (m, c2, lo)) :
    TransactionSet.classify_segment cat s tl = ⟨some "organization", some m, lo, some c2⟩ := by
  simp only [TransactionSet.classify_segment]
  rw [if_neg (by simp [hI]), if_neg (by simp [hF]), if_pos (by simp [hO]), hlb]

lemma classify_segment_claim (cat : SegmentCatalog) (s : String) (tl : List String)
    (m c2 : List String) (lo : Option String)
    (hI : find_identifier s ≠ cat.interchangeId)
    (hF : find_identifier s ≠ cat.financialInformationId)
    (hO : find_identifier s ≠ cat.organizationId)
    (hC : find_identifier s = cat.claimId)
    (hlb : loopBuild cat.claimOwned s tl = (m, c2, lo)) :
    TransactionSet.classify_segment cat s tl = ⟨some "claim", some m, lo, some c2⟩ := by
  simp only [TransactionSet.classify_segment]
  rw [if_neg (by simp [hI]), if_neg (by simp [hF]), if_neg (by simp [hO]),
    if_pos (by simp [hC]), hlb]

lemma buildLoop_cons (cat : SegmentCatalog) (fuel : Nat) (pending : Option String)
    (segs : List String) (acc : RawTransactionSet) (segs2 : List String)
    (h : (TransactionSet.build_attribute cat pending segs).segments = some segs2) :
    TransactionSet.buildLoop cat (fuel + 1) pending segs acc =
      TransactionSet.buildLoop cat fuel (TransactionSet.build_attribute cat pending segs).segment
        segs2 (TransactionSet.updateAttributes (TransactionSet.build_attribute cat pending segs) acc) := by
  rcases hba : TransactionSet.build_attribute cat pending segs with ⟨k, v, p2, so⟩
  rw [hba] at h
  cases so with
  | none => cases h
  | some s2 =>
    cases h
    simp [TransactionSet.buildLoop, hba]

lemma updateAttributes_interchange (value : Option (List String)) (p : Option String)
    (so : Option (List String)) (acc : RawTransactionSet) :
    TransactionSet.updateAttributes ⟨some "interchange", value, p, so⟩ acc =
      { acc with interchange := value } := rfl

lemma updateAttributes_financial (value : Option (List String)) (p : Option String)
    (so : Option (List String)) (acc : RawTransactionSet) :
    TransactionSet.updateAttributes ⟨some "financial information", value, p, so⟩ acc =
      { acc with financial_information := value } := rfl

lemma updateAttributes_organization (m : List String) (p : Option String)
    (so : Option (List String)) (acc : RawTransactionSet) :
    TransactionSet.updateAttributes ⟨some "organization", some m, p, so⟩ acc =
      { acc with organizations := acc.organizations ++ [m] } := rfl

lemma updateAttributes_claim (m : List String) (p : Option String)
    (so : Option (List String)) (acc : RawTransactionSet) :
    TransactionSet.updateAttributes ⟨some "claim", some m, p, so⟩ acc =
      { acc with claims := acc.claims ++ [m] } := rfl

lemma updateAttributes_none (value : Option (List String)) (p : Option String)
    (so : Option (List String)) (acc : RawTransactionSet) :
    TransactionSet.updateAttributes ⟨none, value, p, so⟩ acc = acc := rfl

lemma classify_step_headers (cat : SegmentCatalog)
    (hoi : cat.organizationOwned cat.interchangeId = false)
    (hof : cat.organizationOwned cat.financialInformationId = false)
    (hci : cat.claimOwned cat.interchangeId = false)
    (hcf : cat.claimOwned cat.financialInformationId = false)
    (hif : cat.interchangeId ≠ cat.financialInformationId)
    (hio : cat.interchangeId ≠ cat.organizationId)
    (hicl : cat.interchangeId ≠ cat.claimId)
    (hfo : cat.financialInformationId ≠ cat.organizationId)
    (hfcl : cat.financialInformationId ≠ cat.claimId)
    (s : String) (tl : List String) (acc : RawTransactionSet) (fuel : Nat) :
    ∃ pend2 segs2 acc2,
      TransactionSet.buildLoop cat (fuel + 1) (some s) tl acc =
        TransactionSet.buildLoop cat fuel pend2 segs2 acc2 ∧
      TransactionSet.buildLoop cat (fuel + 1) none (s :: tl) acc =
        TransactionSet.buildLoop cat fuel pend2 segs2 acc2 ∧
      headerFrom cat.interchangeId (s :: tl) acc.interchange =
        headerFrom cat.interchangeId (pend2.toList ++ segs2) acc2.interchange ∧
      headerFrom cat.financialInformationId (s :: tl) acc.financial_information =
        headerFrom cat.financialInformationId (pend2.toList ++ segs2)
          acc2.financial_information := by
  have hba1 : TransactionSet.build_attribute cat (some s) tl =
      TransactionSet.classify_segment cat s tl := rfl
  have hba2 : TransactionSet.build_attribute cat none (s :: tl) =
      TransactionSet.classify_segment cat s tl := rfl
  by_cases hI : find_identifier s = cat.interchangeId
  · have hcs := classify_segment_interchange cat s tl hI
    refine ⟨none, tl, { acc with interchange := some [s] }, ?_, ?_, ?_, ?_⟩
    · rw [buildLoop_cons cat fuel (some s) tl acc tl (by rw [hba1, hcs]), hba1, hcs,
        updateAttributes_interchange]
    · rw [buildLoop_cons cat fuel none (s :: tl) acc tl (by rw [hba2, hcs]), hba2, hcs,
        updateAttributes_interchange]
    · exact headerFrom_cons_tagged cat.interchangeId s tl acc.interchange hI
    · exact headerFrom_cons_untagged cat.financialInformationId s tl acc.financial_information
        (by rw [hI]; exact hif)
  · by_cases hF : find_identifier s = cat.financialInformationId
    · have hcs := classify_segment_financial cat s tl hI hF
      refine ⟨none, tl, { acc with financial_information := some [s] }, ?_, ?_, ?_, ?_⟩
      · rw [buildLoop_cons cat fuel (some s) tl acc tl (by rw [hba1, hcs]), hba1, hcs,
          updateAttributes_financial]
      · rw [buildLoop_cons cat fuel none (s :: tl) acc tl (by rw [hba2, hcs]), hba2, hcs,
          updateAttributes_financial]
      · exact headerFrom_cons_untagged cat.interchangeId s tl acc.interchange hI
      · exact headerFrom_cons_tagged cat.financialInformationId s tl
          acc.financial_information hF
    · by_cases hO : find_identifier s = cat.organizationId
      · rcases hlb : loopBuild cat.organizationOwned s tl with ⟨m, c2, lo⟩
        have hcs := classify_segment_organization cat s tl m c2 lo hI hF hO hlb
        obtain ⟨pre, hpre, hownedAll⟩ := loopBuildGo_split cat.organizationOwned tl [s]
        rw [show loopBuildGo cat.organizationOwned [s] tl = (m, c2, lo) from hlb] at hpre
        have hpreI : ∀ t ∈ pre, find_identifier t ≠ cat.interchangeId := by
          intro t ht hh
          have h5 := hownedAll t ht
          rw [hh, hoi] at h5
          exact Bool.noConfusion h5
        have hpreF : ∀ t ∈ pre, find_identifier t ≠ cat.financialInformationId := by
          intro t ht hh
          have h5 := hownedAll t ht
          rw [hh, hof] at h5
          exact Bool.noConfusion h5
        refine ⟨lo, c2, { acc with organizations := acc.organizations ++ [m] }, ?_, ?_, ?_, ?_⟩
        · rw [buildLoop_cons cat fuel (some s) tl acc c2 (by rw [hba1, hcs]), hba1, hcs,
            updateAttributes_organization]
        · rw [buildLoop_cons cat fuel none (s :: tl) acc c2 (by rw [hba2, hcs]), hba2, hcs,
            updateAttributes_organization]
        · rw [headerFrom_cons_untagged cat.interchangeId s tl acc.interchange
              (by rw [hO]; exact fun hh => hio hh.symm), hpre, List.append_assoc]
          exact headerFrom_append_untagged cat.interchangeId pre (lo.toList ++ c2)
            acc.interchange hpreI
        · rw [headerFrom_cons_untagged cat.financialInformationId s tl acc.financial_information
              (by rw [hO]; exact fun hh => hfo hh.symm), hpre, List.append_assoc]
          exact headerFrom_append_untagged cat.financialInformationId pre (lo.toList ++ c2)
            acc.financial_information hpreF
      · by_cases hC : find_identifier s = cat.claimId
        · rcases hlb : loopBuild cat.claimOwned s tl with ⟨m, c2, lo⟩
          have hcs := classify_segment_claim cat s tl m c2 lo hI hF hO hC hlb
          obtain ⟨pre, hpre, hownedAll⟩ := loopBuildGo_split cat.claimOwned tl [s]
          rw [show loopBuildGo cat.claimOwned [s] tl = (m, c2, lo) from hlb] at hpre
          have hpreI : ∀ t ∈ pre, find_identifier t ≠ cat.interchangeId := by
            intro t ht hh
            have h5 := hownedAll t ht
            rw [hh, hci] at h5
            exact Bool.noConfusion h5
          have hpreF : ∀ t ∈ pre, find_identifier t ≠ cat.financialInformationId := by
            intro t ht hh
            have h5 := hownedAll t ht
            rw [hh, hcf] at h5
            exact Bool.noConfusion h5
          refine ⟨lo, c2, { acc with claims := acc.claims ++ [m] }, ?_, ?_, ?_, ?_⟩
          · rw [buildLoop_cons cat fuel (some s) tl acc c2 (by rw [hba1, hcs]), hba1, hcs,
              updateAttributes_claim]
          · rw [buildLoop_cons cat fuel none (s :: tl) acc c2 (by rw [hba2, hcs]), hba2, hcs,
              updateAttributes_claim]
          · rw [headerFrom_cons_untagged cat.interchangeId s tl acc.interchange
                (by rw [hC]; exact fun hh => hicl hh.symm), hpre, List.append_assoc]
            exact headerFrom_append_untagged cat.interchangeId pre (lo.toList ++ c2)
              acc.interchange hpreI
          · rw [headerFrom_cons_untagged cat.financialInformationId s tl
                acc.financial_information
                (by rw [hC]; exact fun hh => hfcl hh.symm), hpre, List.append_assoc]
            exact headerFrom_append_untagged cat.financialInformationId pre (lo.toList ++ c2)
              acc.financial_information hpreF
        · have hcs := classify_segment_unrecognized cat s tl hI hF hO hC
          refine ⟨none, tl, acc, ?_, ?_, ?_, ?_⟩
          · rw [buildLoop_cons cat fuel (some s) tl acc tl (by rw [hba1, hcs]), hba1, hcs,
              updateAttributes_none]
          · rw [buildLoop_cons cat fuel none (s :: tl) acc tl (by rw [hba2, hcs]), hba2, hcs,
              updateAttributes_none]
          · exact headerFrom_cons_untagged cat.interchangeId s tl acc.interchange hI
          · exact headerFrom_cons_untagged cat.financialInformationId s tl
              acc.financial_information hF

lemma buildLoop_headers (cat : SegmentCatalog)
    (hoi : cat.organizationOwned cat.interchangeId = false)
    (hof : cat.organizationOwned cat.financialInformationId = false)
    (hci : cat.claimOwned cat.interchangeId = false)
    (hcf : cat.claimOwned cat.financialInformationId = false)
    (hif : cat.interchangeId ≠ cat.financialInformationId)
    (hio : cat.interchangeId ≠ cat.organizationId)
    (hicl : cat.interchangeId ≠ cat.claimId)
    (hfo : cat.financialInformationId ≠ cat.organizationId)
    (hfcl : cat.financialInformationId ≠ cat.claimId) :
    ∀ (fuel : Nat) (pending : Option String) (segs : List String)
      (acc r : RawTransactionSet),
      TransactionSet.buildLoop cat fuel pending segs acc = some r →
      r.interchange = headerFrom cat.interchangeId (pending.toList ++ segs) acc.interchange ∧
      r.financial_information = headerFrom cat.financialInformationId
        (pending.toList ++ segs) acc.financial_information := by
  intro fuel
  induction fuel with
  | zero =>
    intro pending segs acc r h
    exact absurd h (by simp [TransactionSet.buildLoop])
  | succ fuel ih =>
    intro pending segs acc r h
    cases pending with
    | some s =>
      obtain ⟨p2, s2, a2, hstep, _, hI, hF⟩ :=
        classify_step_headers cat hoi hof hci hcf hif hio hicl hfo hfcl s segs acc fuel
      rw [hstep] at h
      obtain ⟨hI2, hF2⟩ := ih p2 s2 a2 r h
      exact ⟨hI2.trans hI.symm, hF2.trans hF.symm⟩
    | none =>
      cases segs with
      | nil =>
        have hexit : TransactionSet.buildLoop cat (fuel + 1) none [] acc = some acc := rfl
        rw [hexit] at h
        cases h
        exact ⟨rfl, rfl⟩
      | cons s tl =>
        obtain ⟨p2, s2, a2, _, hstep, hI, hF⟩ :=
          classify_step_headers cat hoi hof hci hcf hif hio hicl hfo hfcl s tl acc fuel
        rw [hstep] at h
        obtain ⟨hI2, hF2⟩ := ih p2 s2 a2 r h
        exact ⟨hI2.trans hI.symm, hF2.trans hF.symm⟩

/-- Claim C9: the build succeeds and its interchange (respectively
financial information) record is the one built from the last segment of
the document tagged with the Interchange (respectively
FinancialInformation) identification, earlier occurrences being silently
overwritten, provided the loop builders do not own the two header
identifications and the four identifications are pairwise usable (the
header tags differ from each other and from the loop-initiating tags). -/
theorem duplicate_header_last_wins (cat : SegmentCatalog) (file : String)
    (hoi : cat.organizationOwned cat.interchangeId = false)
    (hof : cat.organizationOwned cat.financialInformationId = false)
    (hci : cat.claimOwned cat.interchangeId = false)
    (hcf : cat.claimOwned cat.financialInformationId = false)
    (hif : cat.interchangeId ≠ cat.financialInformationId)
    (hio : cat.interchangeId ≠ cat.organizationId)
    (hicl : cat.interchangeId ≠ cat.claimId)
    (hfo : cat.financialInformationId ≠ cat.organizationId)
    (hfcl : cat.financialInformationId ≠ cat.claimId) :
    ∃ r, TransactionSet.build cat file = some r ∧
      r.interchange = (match lastTagged cat.interchangeId (TransactionSet.tokenize file) with
        | some s => some [s]
        | none => none) ∧
      r.financial_information =
        (match lastTagged cat.financialInformationId (TransactionSet.tokenize file) with
        | some s => some [s]
        | none => none) := by
  obtain ⟨r, hr⟩ := buildLoop_total cat ((TransactionSet.tokenize file).length + 1) none
    (TransactionSet.tokenize file) ⟨none, none, [], []⟩ (by simp [pendingCount])
  obtain ⟨hI, hF⟩ := buildLoop_headers cat hoi hof hci hcf hif hio hicl hfo hfcl
    ((TransactionSet.tokenize file).length + 1) none (TransactionSet.tokenize file)
    ⟨none, none, [], []⟩ r hr
  exact ⟨r, hr, hI, hF⟩

/-- Witness for C9 at a document with duplicated header segments. -/
theorem duplicate_header_last_wins_witness :
    ∃ r, TransactionSet.build exCatalog "ISA*1~BPR*1~ISA*2~BPR*2" = some r ∧
      r.interchange = (match lastTagged exCatalog.interchangeId
          (TransactionSet.tokenize "ISA*1~BPR*1~ISA*2~BPR*2") with
        | some s => some [s]
        | none => none) ∧
      r.financial_information = (match lastTagged exCatalog.financialInformationId
          (TransactionSet.tokenize "ISA*1~BPR*1~ISA*2~BPR*2") with
        | some s => some [s]
        | none => none) :=
  duplicate_header_last_wins exCatalog "ISA*1~BPR*1~ISA*2~BPR*2" (by decide) (by decide)
    (by decide) (by decide) (by decide) (by decide) (by decide) (by decide) (by decide)
